import Mathlib

/-!
# Verification of the chat-authorization bridge

Shallow embedding of the todo-list application's chat-to-tool-call bridge:
the JWT token verifier and identity-guard middleware, the MCP tool executor
(add/list/complete/delete/update task), the chat orchestrator, and the
frontend chat/auth API clients.  Sources: the backend snippets embedded in
the security documentation (`src/unnamed/part_000`), the frontend
`chatApi`/`mockAuthApi` modules (`src/unnamed/part_002`),
`src/frontend/src/lib/authApi.ts`, and the database schema in
`src/specs/architecture.md`.
-/

namespace Todo

/-! ## Data model

Task status and priority values per the `tasks` table schema in
`src/specs/architecture.md` and the `Task` interface in `src/unnamed/part_003`. -/

inductive TaskStatus where
  | pending
  | inProgress
  | completed
deriving DecidableEq, Repr

inductive TaskPriority where
  | low
  | medium
  | high
deriving DecidableEq, Repr

/-- A task row, per the `tasks` table in `src/specs/architecture.md` and the
`Task` interface in `src/unnamed/part_003`. -/
structure Task where
  id : String
  user_id : String
  title : String
  description : Option String
  status : TaskStatus
  priority : TaskPriority
  due_date : Option String
  created_at : String
  updated_at : String
  completed_at : Option String
deriving DecidableEq, Repr

/-! ## String primitives

Python's `str.startswith` and slicing (and JavaScript's `startsWith`) operate
on sequences of code points; they are embedded over the character list. -/

/-- `s.startswith(p)` over the character list. -/
def strStartsWith (s p : String) : Bool :=
  s.data.take p.data.length = p.data

/-- `s[n:]` over the character list. -/
def strDrop (s : String) (n : Nat) : String :=
  ⟨s.data.drop n⟩

/-- Length of a string in code points, as Python's `len`. -/
def strLen (s : String) : Nat :=
  s.data.length

/-! ## Token Verifier (`src/unnamed/part_000`, `src/utils/jwt.py` snippets) -/

/-- Decoded JWT claims. The `sub` claim may be absent. -/
structure JwtPayload where
  sub : Option String
deriving DecidableEq, Repr

/-- A JWT as held by a client: the secret it was signed with plus its payload.
HS256 signature verification succeeds exactly when the signing secret equals
the verifier's secret. -/
structure JwtToken where
  signedWith : String
  payload : JwtPayload
deriving DecidableEq, Repr

/-- `jwt.decode(token, secret, algorithms=["HS256"])` from the
`src/utils/jwt.py` snippet in `src/unnamed/part_000`: returns the payload when
the signature verifies against `secret`, fails otherwise. -/
def jwtDecode (secret : String) (tok : JwtToken) : Option JwtPayload :=
  if tok.signedWith = secret then some tok.payload else none

structure TokenData where
  user_id : String
deriving DecidableEq, Repr

/-- `verify_token` from `src/unnamed/part_000` lines 67-72: decode and verify
the signature, then extract the `sub` claim; a decode failure or a missing
claim yields HTTP 401 (per the documented test scenarios: invalid or expired
token gives `401 Unauthorized`). The error value is the HTTP status code. -/
def verify_token (secret : String) (tok : JwtToken) : Except Nat TokenData :=
  match jwtDecode secret tok with
  | none => .error 401
  | some payload =>
    match payload.sub with
    | none => .error 401
    | some uid => .ok { user_id := uid }

/-- An incoming HTTP request as seen by the middleware: its path and the raw
`Authorization` header, if present. -/
structure Request where
  path : String
  authorization : Option String
deriving Repr

/-- `verify_jwt_middleware` from `src/unnamed/part_000` lines 19-32.  For
paths under `/api/`: the header must be present and start with `Bearer `;
the remainder is decoded by `verify_token` and the resulting token data is
attached to the request state (`some`).  Non-`/api/` paths pass through with
no token data (`none`).  `decode` maps the raw token string to the JWT it
denotes (the wire encoding is abstracted). -/
def verify_jwt_middleware (decode : String → JwtToken) (secret : String)
    (req : Request) : Except Nat (Option TokenData) :=
  if strStartsWith req.path "/api/" then
    match req.authorization with
    | none => .error 401
    | some h =>
      if strStartsWith h "Bearer " then
        match verify_token secret (decode (strDrop h (strLen "Bearer "))) with
        | .error e => .error e
        | .ok td => .ok (some td)
      else .error 401
  else .ok none

/-! ## Tool Executor (`src/mcp/server.py` snippets in `src/unnamed/part_000`) -/

/-- Payload of a successful tool call. -/
inductive ToolData where
  | taskId (id : String)
  | taskList (tasks : List Task)
  | done
deriving DecidableEq, Repr

/-- The uniform tool result shape (spec 4.3): a success flag with a data
payload, or an error message, matching the dictionaries the MCP tool handlers
return (`src/unnamed/part_000` lines 111-121, 143-147). -/
inductive ToolResult where
  | ok (data : ToolData)
  | err (msg : String)
deriving DecidableEq, Repr

/-- A conversation row (`Conversation` interface in `src/unnamed/part_002`;
timestamps elided). -/
structure Conversation where
  id : Nat
  user_id : String
  title : Option String
deriving DecidableEq, Repr

inductive Role where
  | user
  | assistant
  | system
deriving DecidableEq, Repr

/-- Partial field updates accepted by `update_task` (spec 4.3). -/
structure TaskUpdate where
  title : Option String
  description : Option String
  status : Option TaskStatus
  priority : Option TaskPriority
  due_date : Option String
deriving DecidableEq, Repr

/-- A tool invocation requested by the agent, one of the five fixed
task-management tools. -/
inductive ToolReq where
  | add_task (title : String) (description : Option String)
      (priority : Option TaskPriority) (due_date : Option String)
  | list_tasks (status_filter : Option TaskStatus)
  | complete_task (task_id : String)
  | delete_task (task_id : String)
  | update_task (task_id : String) (fields : TaskUpdate)
deriving DecidableEq, Repr

/-- A tool-call record embedded in an assistant message: the request and its
result (the `ToolCall` interface in `src/unnamed/part_002`). -/
structure ToolCallRec where
  request : ToolReq
  result : ToolResult
deriving DecidableEq, Repr

/-- A message row (`Message` interface in `src/unnamed/part_002`). -/
structure MessageRec where
  id : Nat
  conversation_id : Nat
  role : Role
  content : String
  tool_calls : List ToolCallRec
  created_at : String
deriving DecidableEq, Repr

/-- The persistent store: users, tasks, conversations and messages, plus the
counters feeding identifier generation. -/
structure Store where
  users : List String
  tasks : List Task
  conversations : List Conversation
  messages : List MessageRec
  nextTaskNum : Nat
  nextConvId : Nat
  nextMsgId : Nat
deriving DecidableEq, Repr

/-- Generated task identifier (`gen_random_uuid()` in the schema, `uuid4` in
the backend): successive fresh identifiers are modelled by a counter. -/
def mkTaskId (n : Nat) : String :=
  "task-" ++ toString n

/-- `session.get(Task, str(task_uuid))`: primary-key lookup
(`src/unnamed/part_000` line 145). -/
def session_get (tasks : List Task) (task_id : String) : Option Task :=
  tasks.find? (fun t => decide (t.id = task_id))

/-- The ownership-mismatch error message returned by the task tools
(`src/unnamed/part_000` line 147). -/
def ownershipMismatchMsg : String :=
  "Task does not belong to the specified user"

/-- The not-found error message, following the `User not found: ...` message
pattern of `handle_add_task` (`src/unnamed/part_000` line 117). -/
def taskNotFoundMsg (task_id : String) : String :=
  "Task not found: " ++ task_id

/-- `handle_add_task` (`src/unnamed/part_000` lines 111-121): verify the user
exists (else `User not found`), then create a task owned by the verified
user id.  Status defaults to `pending` and priority to `medium` per the
`tasks` table defaults in `src/specs/architecture.md`.
Modelled from the spec: the success payload carries the new task's
identifier (spec 4.3); the snippet elides the return value. -/
def handle_add_task (st : Store) (user_id : String) (title : String)
    (description : Option String) (priority : Option TaskPriority)
    (due_date : Option String) (now : String) : ToolResult × Store :=
  if user_id ∈ st.users then
    let t : Task :=
      { id := mkTaskId st.nextTaskNum, user_id := user_id,
        title := title, description := description, status := .pending,
        priority := priority.getD .medium, due_date := due_date,
        created_at := now, updated_at := now, completed_at := none }
    (.ok (.taskId t.id),
      { st with tasks := t :: st.tasks, nextTaskNum := st.nextTaskNum + 1 })
  else (.err ("User not found: " ++ user_id), st)

/-- `list_tasks` MCP tool: the query
`select(Task).where(Task.user_id == str(user_uuid))`
(`src/unnamed/part_000` line 140) filters tasks by the owning user.
Modelled from the spec: the optional status filter of
`list_tasks(user_id, status_filter?)` (spec 4.3) is applied as a second
filter. -/
def list_tasks (st : Store) (user_id : String)
    (status_filter : Option TaskStatus) : List Task :=
  (st.tasks.filter (fun t => decide (t.user_id = user_id))).filter
    (fun t => match status_filter with
      | none => true
      | some s => decide (t.status = s))

/-- `complete_task` MCP tool (`src/unnamed/part_000` lines 143-147): load the
task by primary key; fail with the ownership-mismatch error when the stored
owner differs from the given user.
Modelled from the spec: the not-found branch (elided by the snippet) and the
success path, which sets status to completed and stamps the completion time
(spec 4.3). -/
def complete_task (st : Store) (user_id task_id : String) (now : String) :
    ToolResult × Store :=
  match session_get st.tasks task_id with
  | none => (.err (taskNotFoundMsg task_id), st)
  | some task =>
    if task.user_id ≠ user_id then
      (.err ownershipMismatchMsg, st)
    else
      let t0 : Task :=
        { task with status := .completed, completed_at := some now, updated_at := now }
      (.ok (.taskId task_id),
        { st with tasks := st.tasks.map (fun t => if t.id = task_id then t0 else t) })

/-- Modelled from the spec: `delete_task(user_id, task_id)` performs the same
ownership check as `complete_task` and removes the task (spec 4.3); the
implementing file `src/mcp/server.py` is not in the snapshot. -/
def delete_task (st : Store) (user_id task_id : String) : ToolResult × Store :=
  match session_get st.tasks task_id with
  | none => (.err (taskNotFoundMsg task_id), st)
  | some task =>
    if task.user_id ≠ user_id then
      (.err ownershipMismatchMsg, st)
    else
      (.ok .done,
        { st with tasks := st.tasks.filter (fun t => !decide (t.id = task_id)) })

/-- Partial update of one task: absent fields keep the stored value. -/
def applyUpdate (fields : TaskUpdate) (now : String) (t : Task) : Task :=
  { t with
    title := fields.title.getD t.title,
    description := match fields.description with
      | none => t.description
      | some d => some d,
    status := fields.status.getD t.status,
    priority := fields.priority.getD t.priority,
    due_date := match fields.due_date with
      | none => t.due_date
      | some d => some d,
    updated_at := now }

/-- Modelled from the spec: `update_task(user_id, task_id, fields)` performs
the same ownership check and applies partial field updates (spec 4.3); the
implementing file `src/mcp/server.py` is not in the snapshot. -/
def update_task (st : Store) (user_id task_id : String) (fields : TaskUpdate)
    (now : String) : ToolResult × Store :=
  match session_get st.tasks task_id with
  | none => (.err (taskNotFoundMsg task_id), st)
  | some task =>
    if task.user_id ≠ user_id then
      (.err ownershipMismatchMsg, st)
    else
      (.ok (.taskId task_id),
        { st with tasks := st.tasks.map (fun t => if t.id = task_id then applyUpdate fields now t else t) })

/-! ## Chat Orchestrator (`src/routes/chat.py` excerpt in `src/unnamed/part_000`;
interfaces in `src/unnamed/part_002`; spec 4.4) -/

/-- Request body of `POST /api/.../chat` (the `ChatRequest` interface in
`src/unnamed/part_002`). -/
structure ChatRequest where
  message : String
  conversation_id : Option Nat
deriving DecidableEq, Repr

/-- The chat response shape: the `ChatResponse` interface in
`src/unnamed/part_002` lines 213-220, field for field. -/
structure ChatResponse where
  success : Bool
  conversation_id : Nat
  response : String
  tool_calls : List ToolCallRec
  message_id : Nat
  created_at : String
deriving DecidableEq, Repr

/-- An HTTP error raised by the route layer: status code and detail. -/
structure HttpError where
  status : Nat
  detail : String
deriving DecidableEq, Repr

/-- JSON values, for the serialized response shape. -/
inductive Json where
  | str (s : String)
  | num (n : Nat)
  | boolean (b : Bool)
  | arr (elems : List Json)
  | obj (fields : List (String × Json))
deriving Repr

/-- Top-level field names of a JSON object. -/
def jsonKeys : Json → List String
  | .obj fields => fields.map Prod.fst
  | _ => []

/-- The wire name of each tool. -/
def ToolReq.toolName : ToolReq → String
  | .add_task .. => "add_task"
  | .list_tasks .. => "list_tasks"
  | .complete_task .. => "complete_task"
  | .delete_task .. => "delete_task"
  | .update_task .. => "update_task"

/-- The success flag of a tool result (spec 4.3). -/
def ToolResult.successFlag : ToolResult → Bool
  | .ok _ => true
  | .err _ => false

/-- Serialization of one tool-call record (`ToolCall` interface in
`src/unnamed/part_002`; argument and payload maps elided). -/
def ToolCallRec.toJson (c : ToolCallRec) : Json :=
  .obj [("tool_name", .str c.request.toolName),
        ("success", .boolean c.result.successFlag)]

/-- Serialization of the chat response, field for field in the order of the
`ChatResponse` interface in `src/unnamed/part_002` lines 213-220. -/
def ChatResponse.toJson (r : ChatResponse) : Json :=
  .obj [("success", .boolean r.success),
        ("conversation_id", .num r.conversation_id),
        ("response", .str r.response),
        ("tool_calls", .arr (r.tool_calls.map ToolCallRec.toJson)),
        ("message_id", .num r.message_id),
        ("created_at", .str r.created_at)]

/-- Modelled from the spec: conversation resolution (spec 4.4 step 2, with
the 404/403 statuses of spec section 6) — with no id, create a new
Conversation owned by the user; with an id, load it (404 when absent) and
verify ownership (403 otherwise).  `src/routes/chat.py` is in the snapshot
only through its identity-guard excerpt. -/
def resolve_conversation (st : Store) (user_id : String) (cid : Option Nat) :
    Except HttpError (Conversation × Store) :=
  match cid with
  | none =>
    let c : Conversation := { id := st.nextConvId, user_id := user_id, title := none }
    .ok (c, { st with conversations := c :: st.conversations, nextConvId := st.nextConvId + 1 })
  | some i =>
    match st.conversations.find? (fun c => decide (c.id = i)) with
    | none => .error { status := 404, detail := "Conversation not found" }
    | some c =>
      if c.user_id ≠ user_id then
        .error { status := 403, detail := "Conversation does not belong to the specified user" }
      else .ok (c, st)

/-- Dispatch of one agent-requested tool call to the Tool Executor, always
with the verified user id (spec 4.4 step 4 and the tagged-union design
note). -/
def execute_tool (st : Store) (user_id now : String) :
    ToolReq → ToolResult × Store
  | .add_task title d p due => handle_add_task st user_id title d p due now
  | .list_tasks f => (.ok (.taskList (list_tasks st user_id f)), st)
  | .complete_task tid => complete_task st user_id tid now
  | .delete_task tid => delete_task st user_id tid
  | .update_task tid fields => update_task st user_id tid fields now

/-- Execute the agent's requested tool calls in order, threading the store
and collecting one record per call (spec 4.4 step 4). -/
def run_tools (user_id now : String) : Store → List ToolReq → Store × List ToolCallRec
  | st, [] => (st, [])
  | st, r :: rs =>
    ((run_tools user_id now (execute_tool st user_id now r).2 rs).1,
      { request := r, result := (execute_tool st user_id now r).1 }
        :: (run_tools user_id now (execute_tool st user_id now r).2 rs).2)

/-- Modelled from the spec: `run_agent_with_message` (named in
`src/unnamed/part_000` line 101), the orchestration a chat request goes
through once the identity guard has passed (spec 4.4) — resolve the
conversation, execute the agent's tool calls with the verified user id,
persist the user and assistant messages, update the counters and respond
with the `ChatResponse` shape.  The agent collaborator is abstracted by the
tool calls it requests (`agentCalls`) and its response text
(`response_text`).  Besides the HTTP result the function returns the final
store and the list of tool calls actually executed. -/
def run_agent_with_message (st : Store) (user_id : String)
    (request : ChatRequest) (agentCalls : List ToolReq)
    (response_text now : String) :
    Except HttpError ChatResponse × Store × List ToolReq :=
  match resolve_conversation st user_id request.conversation_id with
  | .error e => (.error e, st, [])
  | .ok (conv, st1) =>
    let st2 := (run_tools user_id now st1 agentCalls).1
    let recs := (run_tools user_id now st1 agentCalls).2
    let userMsg : MessageRec :=
      { id := st2.nextMsgId, conversation_id := conv.id, role := .user,
        content := request.message, tool_calls := [], created_at := now }
    let asstMsg : MessageRec :=
      { id := st2.nextMsgId + 1, conversation_id := conv.id, role := .assistant,
        content := response_text, tool_calls := recs, created_at := now }
    (.ok { success := true, conversation_id := conv.id, response := response_text,
           tool_calls := recs, message_id := asstMsg.id, created_at := now },
      { st2 with messages := asstMsg :: userMsg :: st2.messages,
                 nextMsgId := st2.nextMsgId + 2 },
      agentCalls)

/-- The `chat` route handler.  Its identity guard is the excerpt at
`src/unnamed/part_000` lines 80-93: a 403 with the documented detail string
when the path `user_id` differs from the verified token subject, raised
before any business logic; otherwise the request proceeds to
`run_agent_with_message`. -/
def chat (st : Store) (token_data : TokenData) (user_id : String)
    (request : ChatRequest) (agentCalls : List ToolReq)
    (response_text now : String) :
    Except HttpError ChatResponse × Store × List ToolReq :=
  if token_data.user_id ≠ user_id then
    (.error { status := 403, detail := "User ID in path does not match authenticated user" },
      st, [])
  else
    run_agent_with_message st user_id request agentCalls response_text now

/-! ## Frontend chat client (`chatApi` in `src/unnamed/part_002`) -/

/-- Browser-side storage: the `authToken` entry of localStorage. -/
structure ClientStore where
  authToken : Option String
deriving Repr

/-- `getAuthToken` (`src/unnamed/part_002` lines 167-169): reads the
`authToken` localStorage entry. -/
def getAuthToken (st : ClientStore) : Option String :=
  st.authToken

/-- The decoded body of a client-side JWT, as produced by
`parseJwtPayload`. -/
structure ClientPayload where
  sub : Option String
deriving Repr

/-- `getCurrentUserId` (`src/unnamed/part_002` lines 194-200): the `sub`
claim of the stored token; null when the token is absent or empty
(JavaScript falsiness of `!token`), when parsing fails, or when the `sub`
claim is missing or empty (`payload?.sub || null` coalesces falsy values).
`parse` abstracts `parseJwtPayload`'s base64url/JSON decoding. -/
def getCurrentUserId (parse : String → Option ClientPayload)
    (st : ClientStore) : Option String :=
  match getAuthToken st with
  | none => none
  | some token =>
    if token = "" then none
    else
      match parse token with
      | none => none
      | some payload =>
        match payload.sub with
        | none => none
        | some s => if s = "" then none else some s

/-- An HTTP request issued by the chat client: method, the user id placed in
the path, the remainder of the path, the bearer token attached, and the JSON
body when one is sent. -/
structure HttpReq where
  method : String
  pathUserId : String
  pathRest : String
  bearer : String
  body : Option ChatRequest := none
deriving DecidableEq, Repr

namespace chatApi

/-- `chatApi.sendMessage` (`src/unnamed/part_002` lines 257-277): requires
both the stored token and a recoverable user id, else throws
`Authentication required` before any network request; otherwise issues a
POST whose path embeds the recovered user id and whose Authorization header
carries the stored token. -/
def sendMessage (parse : String → Option ClientPayload) (st : ClientStore)
    (request : ChatRequest) : Except String HttpReq :=
  match getAuthToken st, getCurrentUserId parse st with
  | some token, some userId =>
    if token = "" then .error "Authentication required"
    else .ok { method := "POST", pathUserId := userId, pathRest := "/chat",
               bearer := token, body := some request }
  | _, _ => .error "Authentication required"

/-- `chatApi.getConversation` (`src/unnamed/part_002` lines 282-300): same
guard, then a GET of the conversation's history path. -/
def getConversation (parse : String → Option ClientPayload) (st : ClientStore)
    (conversationId : Nat) : Except String HttpReq :=
  match getAuthToken st, getCurrentUserId parse st with
  | some token, some userId =>
    if token = "" then .error "Authentication required"
    else .ok { method := "GET", pathUserId := userId,
               pathRest := "/conversations/" ++ toString conversationId,
               bearer := token }
  | _, _ => .error "Authentication required"

/-- `chatApi.listConversations` (`src/unnamed/part_002` lines 305-323): same
guard, then a GET of the conversation list with limit and offset. -/
def listConversations (parse : String → Option ClientPayload) (st : ClientStore)
    (limit offset : Nat) : Except String HttpReq :=
  match getAuthToken st, getCurrentUserId parse st with
  | some token, some userId =>
    if token = "" then .error "Authentication required"
    else .ok { method := "GET", pathUserId := userId,
               pathRest := "/conversations?limit=" ++ toString limit
                 ++ "&offset=" ++ toString offset,
               bearer := token }
  | _, _ => .error "Authentication required"

/-- `chatApi.deleteConversation` (`src/unnamed/part_002` lines 328-346): same
guard, then a DELETE of the conversation's path. -/
def deleteConversation (parse : String → Option ClientPayload) (st : ClientStore)
    (conversationId : Nat) : Except String HttpReq :=
  match getAuthToken st, getCurrentUserId parse st with
  | some token, some userId =>
    if token = "" then .error "Authentication required"
    else .ok { method := "DELETE", pathUserId := userId,
               pathRest := "/conversations/" ++ toString conversationId,
               bearer := token }
  | _, _ => .error "Authentication required"

end chatApi

/-! ## Auth API with mock fallback (`src/frontend/src/lib/authApi.ts` and
`mockAuthApi` in `src/unnamed/part_002`) -/

/-- An axios response as far as the fallback wrapper builds and inspects it. -/
structure AxiosResponse (T : Type) where
  data : T
  status : Nat
  statusText : String
deriving Repr

/-- `isBackendAvailable` (`authApi.ts` lines 30-38): GET `/health`, report
whether it answered 200; any thrown error yields false.  The network outcome
is the parameter. -/
def isBackendAvailable (health : Except String Nat) : Bool :=
  match health with
  | .ok code => decide (code = 200)
  | .error _ => false

/-- `callWithFallback` (`authApi.ts` lines 41-60): when the backend looks
available, try the real call and on a thrown error fall back to the mock;
when it looks unavailable, call the mock directly.  A mock result is wrapped
with HTTP status 200; a mock failure propagates as the thrown error. -/
def callWithFallback {T : Type} (backendAvailable : Bool)
    (realCall : Except String (AxiosResponse T))
    (mockCall : Except String T) : Except String (AxiosResponse T) :=
  if backendAvailable then
    match realCall with
    | .ok r => .ok r
    | .error _ =>
      match mockCall with
      | .ok d => .ok { data := d, status := 200, statusText := "OK" }
      | .error e => .error e
  else
    match mockCall with
    | .ok d => .ok { data := d, status := 200, statusText := "OK" }
    | .error e => .error e

/-- A mock user record (`MOCK_USERS` entries in `src/unnamed/part_002`). -/
structure MockUser where
  id : String
  email : String
  username : String
  password : String
deriving DecidableEq, Repr

/-- The in-memory mock user table (`src/unnamed/part_002` lines 7-26). -/
def MOCK_USERS : List MockUser :=
  [{ id := "1", email := "admin@example.com", username := "admin",
     password := "admin123" },
   { id := "2", email := "user@example.com", username := "user",
     password := "user123" },
   { id := "3", email := "test@example.com", username := "testuser",
     password := "password123" }]

/-- The user object returned to callers (id, email, username). -/
structure PublicUser where
  id : String
  email : String
  username : String
deriving DecidableEq, Repr

/-- Body of a successful mock login or register response
(`src/unnamed/part_002`). -/
structure LoginResponse where
  success : Bool
  token : String
  user : PublicUser
  message : String
deriving DecidableEq, Repr

/-- Body of the mock logout response (`src/unnamed/part_002` lines 111-121). -/
structure LogoutResponse where
  success : Bool
  message : String
deriving DecidableEq, Repr

/-- The decoded payload of a mock token (`JSON.parse(atob(parts[2]))`). -/
structure MockTokenPayload where
  user_id : String
deriving Repr

/-- JavaScript's `token.split('.')` over the character list, for a one
character separator. -/
def splitChar (sep : Char) : List Char → List (List Char)
  | [] => [[]]
  | c :: cs =>
    match splitChar sep cs with
    | [] => [[]]
    | h :: t => if c = sep then [] :: h :: t else (c :: h) :: t

/-- Split a string at every occurrence of a character. -/
def strSplit (s : String) (sep : Char) : List String :=
  (splitChar sep s.data).map (fun l => ⟨l⟩)

namespace mockAuthApi

/-- `mockAuthApi.login` (`src/unnamed/part_002` lines 43-69): find the user
by email and password; throw `Invalid credentials` otherwise.  `tokenFor`
abstracts `generateMockToken`, which base64s a payload with a
`Date.now`-based expiry. -/
def login (tokenFor : MockUser → String) (users : List MockUser)
    (email password : String) : Except String LoginResponse :=
  match users.find? (fun u =>
      decide (u.email = email) && decide (u.password = password)) with
  | none => .error "Invalid credentials"
  | some u =>
    .ok { success := true, token := tokenFor u,
          user := { id := u.id, email := u.email, username := u.username },
          message := "Login successful" }

/-- `mockAuthApi.register` (`src/unnamed/part_002` lines 71-109): reject when
the email or username already exists; otherwise append a new user whose id
is `String(MOCK_USERS.length + 1)` and answer like login.  Returns the
response together with the updated user table. -/
def register (tokenFor : MockUser → String) (users : List MockUser)
    (email username password : String) :
    Except String LoginResponse × List MockUser :=
  match users.find? (fun u =>
      decide (u.email = email) || decide (u.username = username)) with
  | some _ => (.error "Email or username already exists", users)
  | none =>
    let newUser : MockUser :=
      { id := toString (users.length + 1), email := email,
        username := username, password := password }
    (.ok { success := true, token := tokenFor newUser,
           user := { id := newUser.id, email := newUser.email,
                     username := newUser.username },
           message := "Registration successful" },
      users ++ [newUser])

/-- `mockAuthApi.logout` (`src/unnamed/part_002` lines 111-121): always
succeeds. -/
def logout : Except String LogoutResponse :=
  .ok { success := true, message := "Logout successful" }

/-- `mockAuthApi.getProfile` (`src/unnamed/part_002` lines 123-156): requires
the stored token (`No token found` otherwise, including the empty string);
splits it on `.` expecting three parts, decodes the third part (`atobParse`
abstracts `atob` plus `JSON.parse`), and looks the user up by the payload's
user id.  Every failure raised inside the try block is rethrown as
`Invalid token`. -/
def getProfile (atobParse : String → Option MockTokenPayload)
    (users : List MockUser) (stored : Option String) :
    Except String PublicUser :=
  match stored with
  | none => .error "No token found"
  | some token =>
    if token = "" then .error "No token found"
    else
      let parts := strSplit token '.'
      if parts.length ≠ 3 then .error "Invalid token"
      else
        match atobParse (parts.getD 2 "") with
        | none => .error "Invalid token"
        | some payload =>
          match users.find? (fun u => decide (u.id = payload.user_id)) with
          | none => .error "Invalid token"
          | some u => .ok { id := u.id, email := u.email, username := u.username }

end mockAuthApi

namespace authApi

/-- `authApi.login` (`authApi.ts` lines 63-68): the real POST to
`/auth/login` (outcome `realCall`) with `mockAuthApi.login` as fallback. -/
def login (health : Except String Nat)
    (realCall : Except String (AxiosResponse LoginResponse))
    (tokenFor : MockUser → String) (users : List MockUser)
    (email password : String) : Except String (AxiosResponse LoginResponse) :=
  callWithFallback (isBackendAvailable health) realCall
    (mockAuthApi.login tokenFor users email password)

/-- `authApi.register` (`authApi.ts` lines 70-75): the real POST to
`/auth/register` with `mockAuthApi.register` as fallback (the mock's user
table mutation is a module side effect; the response is returned). -/
def register (health : Except String Nat)
    (realCall : Except String (AxiosResponse LoginResponse))
    (tokenFor : MockUser → String) (users : List MockUser)
    (email username password : String) :
    Except String (AxiosResponse LoginResponse) :=
  callWithFallback (isBackendAvailable health) realCall
    (mockAuthApi.register tokenFor users email username password).1

/-- `authApi.logout` (`authApi.ts` lines 77-82): the real POST to
`/auth/logout` with `mockAuthApi.logout` as fallback. -/
def logout (health : Except String Nat)
    (realCall : Except String (AxiosResponse LogoutResponse)) :
    Except String (AxiosResponse LogoutResponse) :=
  callWithFallback (isBackendAvailable health) realCall mockAuthApi.logout

/-- `authApi.getProfile` (`authApi.ts` lines 84-89): the real GET of
`/auth/profile` with `mockAuthApi.getProfile` as fallback. -/
def getProfile (health : Except String Nat)
    (realCall : Except String (AxiosResponse PublicUser))
    (atobParse : String → Option MockTokenPayload) (users : List MockUser)
    (stored : Option String) : Except String (AxiosResponse PublicUser) :=
  callWithFallback (isBackendAvailable health) realCall
    (mockAuthApi.getProfile atobParse users stored)

end authApi

/-! Sample data used by concrete witnesses. -/

def aliceTask : Task :=
  { id := "task-0", user_id := "alice", title := "Setup", description := none,
    status := .pending, priority := .high, due_date := none,
    created_at := "t0", updated_at := "t0", completed_at := none }

def bobTask : Task :=
  { id := "task-1", user_id := "bob", title := "Docs", description := none,
    status := .inProgress, priority := .low, due_date := none,
    created_at := "t0", updated_at := "t0", completed_at := none }

def sampleStore : Store :=
  { users := ["alice", "bob"], tasks := [aliceTask, bobTask],
    conversations := [], messages := [],
    nextTaskNum := 2, nextConvId := 1, nextMsgId := 1 }

end Todo

/-! ## Theorems -/

namespace Todo

/-- **C2.** For every `/api/` request in which the Authorization header is
absent, the Bearer prefix is malformed, the token signature is invalid, or
the subject claim is missing, the Token Verifier fails with 401; a request
with a well-formed, correctly signed token carrying a subject claim passes
verification. -/
theorem token_verifier_C2 (decode : String → JwtToken) (secret : String)
    (req : Request) (hapi : strStartsWith req.path "/api/" = true) :
    (req.authorization = none →
      verify_jwt_middleware decode secret req = .error 401) ∧
    (∀ h, req.authorization = some h → strStartsWith h "Bearer " = false →
      verify_jwt_middleware decode secret req = .error 401) ∧
    (∀ h, req.authorization = some h → strStartsWith h "Bearer " = true →
      (decode (strDrop h (strLen "Bearer "))).signedWith ≠ secret →
      verify_jwt_middleware decode secret req = .error 401) ∧
    (∀ h, req.authorization = some h → strStartsWith h "Bearer " = true →
      (decode (strDrop h (strLen "Bearer "))).signedWith = secret →
      (decode (strDrop h (strLen "Bearer "))).payload.sub = none →
      verify_jwt_middleware decode secret req = .error 401) ∧
    (∀ h uid, req.authorization = some h → strStartsWith h "Bearer " = true →
      (decode (strDrop h (strLen "Bearer "))).signedWith = secret →
      (decode (strDrop h (strLen "Bearer "))).payload.sub = some uid →
      verify_jwt_middleware decode secret req = .ok (some { user_id := uid })) := by
  refine ⟨?_, ?_, ?_, ?_, ?_⟩
  · intro hnone
    simp [verify_jwt_middleware, hapi, hnone]
  · intro h hh hbad
    simp [verify_jwt_middleware, hapi, hh, hbad]
  · intro h hh hok hsig
    simp [verify_jwt_middleware, hapi, hh, hok, verify_token, jwtDecode, hsig]
  · intro h hh hok hsig hsub
    simp [verify_jwt_middleware, hapi, hh, hok, verify_token, jwtDecode, hsig, hsub]
  · intro h uid hh hok hsig hsub
    simp [verify_jwt_middleware, hapi, hh, hok, verify_token, jwtDecode, hsig, hsub]

/-- Witness for C2: a concrete request with a valid token verifies, and the
same request with the header stripped is rejected with 401. -/
theorem token_verifier_C2_witness :
    verify_jwt_middleware
      (fun _ => { signedWith := "s3cret", payload := { sub := some "alice" } })
      "s3cret"
      { path := "/api/alice/chat", authorization := some "Bearer tok" }
      = .ok (some { user_id := "alice" }) ∧
    verify_jwt_middleware
      (fun _ => { signedWith := "s3cret", payload := { sub := some "alice" } })
      "s3cret"
      { path := "/api/alice/chat", authorization := none }
      = .error 401 := by
  constructor
  · exact (token_verifier_C2
      (fun _ => { signedWith := "s3cret", payload := { sub := some "alice" } })
      "s3cret"
      { path := "/api/alice/chat", authorization := some "Bearer tok" }
      (by decide)).2.2.2.2 "Bearer tok" "alice" rfl (by decide) rfl rfl
  · exact (token_verifier_C2
      (fun _ => { signedWith := "s3cret", payload := { sub := some "alice" } })
      "s3cret"
      { path := "/api/alice/chat", authorization := none }
      (by decide)).1 rfl

/-- The ownership-mismatch message is distinct from every not-found message:
the two strings differ within their first sixteen characters. -/
theorem ownershipMsg_ne_notFoundMsg (s : String) :
    ownershipMismatchMsg ≠ taskNotFoundMsg s := by
  intro h
  have hd : ownershipMismatchMsg.data = ("Task not found: ").data ++ s.data := by
    rw [show ownershipMismatchMsg = taskNotFoundMsg s from h]; rfl
  have h16 := congrArg (fun l => List.take 16 l) hd
  simp only [] at h16
  rw [List.take_left' (by decide)] at h16
  exact absurd h16 (by decide)

/-- Primary-key lookup after replacing the matching row finds the
replacement, provided the replacement keeps the key. -/
theorem session_get_map_replace (l : List Task) (tid : String) (t0 : Task)
    (h0 : t0.id = tid) (h : (session_get l tid).isSome = true) :
    session_get (l.map (fun t => if t.id = tid then t0 else t)) tid = some t0 := by
  induction l with
  | nil => simp [session_get] at h
  | cons a l ih =>
    by_cases ha : a.id = tid
    · simp [session_get, List.find?, ha, h0]
    · have h' : (session_get l tid).isSome = true := by
        simpa [session_get, List.find?, ha] using h
      simpa [session_get, List.find?, ha] using ih h'

/-- **C3.** Every task returned by `list_tasks(user_id, status_filter?)` is
owned by `user_id` — no task owned by a different user is ever returned —
and when a status filter is given every returned task has that status. -/
theorem list_tasks_isolation_C3 (st : Store) (u : String)
    (status_filter : Option TaskStatus) :
    ∀ t ∈ list_tasks st u status_filter,
      t.user_id = u ∧ ∀ s, status_filter = some s → t.status = s := by
  intro t ht
  unfold list_tasks at ht
  simp only [List.mem_filter] at ht
  obtain ⟨⟨_, hu⟩, hs⟩ := ht
  refine ⟨by simpa using hu, ?_⟩
  intro s hf
  subst hf
  simpa using hs

/-- Witness for C3: on the sample store, the pending filter for alice returns
her pending task, and the theorem applies to it. -/
theorem list_tasks_isolation_C3_witness :
    aliceTask ∈ list_tasks sampleStore "alice" (some .pending) ∧
    (aliceTask.user_id = "alice" ∧
      ∀ s, (some TaskStatus.pending : Option TaskStatus) = some s →
        aliceTask.status = s) := by
  refine ⟨by decide, ?_⟩
  exact list_tasks_isolation_C3 sampleStore "alice" (some .pending) aliceTask (by decide)

/-- **C4.** When the target task exists but its stored owner differs from the
caller, `complete_task` fails with the distinct ownership-mismatch error —
never equal to any not-found result; a missing task yields the not-found
error; and when the owner matches, the task's status is set to completed and
its completion time stamped. -/
theorem complete_task_ownership_C4 (st : Store) (u task_id now : String)
    (t : Task) (hfind : session_get st.tasks task_id = some t) :
    (t.user_id ≠ u →
      (complete_task st u task_id now).1 = .err ownershipMismatchMsg ∧
      ∀ s, (ToolResult.err ownershipMismatchMsg) ≠ .err (taskNotFoundMsg s)) ∧
    (∀ task_id', session_get st.tasks task_id' = none →
      (complete_task st u task_id' now).1 = .err (taskNotFoundMsg task_id')) ∧
    (t.user_id = u →
      (complete_task st u task_id now).1 = .ok (.taskId task_id) ∧
      session_get (complete_task st u task_id now).2.tasks task_id
        = some { t with status := .completed, completed_at := some now, updated_at := now }) := by
  refine ⟨?_, ?_, ?_⟩
  · intro hne
    refine ⟨by simp [complete_task, hfind, hne], ?_⟩
    intro s h
    exact ownershipMsg_ne_notFoundMsg s (by injection h)
  · intro task_id' hnone
    simp [complete_task, hnone]
  · intro heq
    have hsome : (session_get st.tasks task_id).isSome = true := by
      simp [hfind]
    have hid : t.id = task_id := by
      have := List.find?_some hfind
      simpa using this
    constructor
    · simp [complete_task, hfind, heq]
    · simp only [complete_task, hfind, heq, ne_eq, not_true_eq_false, if_false]
      exact session_get_map_replace st.tasks task_id _ hid hsome

/-- Witness for C4: on the sample store, alice completing bob's task hits the
ownership-mismatch branch. -/
theorem complete_task_ownership_C4_witness :
    session_get sampleStore.tasks "task-1" = some bobTask ∧
    bobTask.user_id ≠ "alice" ∧
    (complete_task sampleStore "alice" "task-1" "t1").1
      = .err ownershipMismatchMsg := by
  refine ⟨by decide, by decide, ?_⟩
  exact ((complete_task_ownership_C4 sampleStore "alice" "task-1" "t1" bobTask
    (by decide)).1 (by decide)).1

/-- **C5.** For every `complete_task`, `delete_task` or `update_task` call in
which the target task's stored owner is not the acting user, the operation
returns a failure result and the store — in particular the task record — is
left entirely unmodified. -/
theorem ownership_frame_C5 (st : Store) (u task_id now : String)
    (fields : TaskUpdate) (t : Task)
    (hfind : session_get st.tasks task_id = some t) (hne : t.user_id ≠ u) :
    (complete_task st u task_id now).1 = .err ownershipMismatchMsg ∧
    (complete_task st u task_id now).2 = st ∧
    (delete_task st u task_id).1 = .err ownershipMismatchMsg ∧
    (delete_task st u task_id).2 = st ∧
    (update_task st u task_id fields now).1 = .err ownershipMismatchMsg ∧
    (update_task st u task_id fields now).2 = st := by
  refine ⟨?_, ?_, ?_, ?_, ?_, ?_⟩ <;>
    simp [complete_task, delete_task, update_task, hfind, hne]

/-- Witness for C5: alice acting on bob's task leaves the sample store
untouched for all three mutating tools. -/
theorem ownership_frame_C5_witness :
    session_get sampleStore.tasks "task-1" = some bobTask ∧
    bobTask.user_id ≠ "alice" ∧
    (complete_task sampleStore "alice" "task-1" "t1").2 = sampleStore ∧
    (delete_task sampleStore "alice" "task-1").2 = sampleStore ∧
    (update_task sampleStore "alice" "task-1"
      { title := some "X", description := none, status := none,
        priority := none, due_date := none } "t1").2 = sampleStore := by
  have h := ownership_frame_C5 sampleStore "alice" "task-1" "t1"
    { title := some "X", description := none, status := none,
      priority := none, due_date := none } bobTask (by decide) (by decide)
  exact ⟨by decide, by decide, h.2.1, h.2.2.2.1, h.2.2.2.2.2⟩

/-- **C6.** Calling `add_task` for an existing user with title `Buy milk` and
priority `low` creates a task with status `pending`, priority `low`, owner
equal to the caller, and a freshly generated identifier; the new task appears
in a subsequent `list_tasks` for the same user and in no other user's
`list_tasks`. -/
theorem add_task_buy_milk_C6 (st : Store) (u other now : String)
    (hu : u ∈ st.users) (hother : other ≠ u)
    (hfresh : ∀ t ∈ st.tasks, t.id ≠ mkTaskId st.nextTaskNum) :
    ∃ t : Task,
      (handle_add_task st u "Buy milk" none (some .low) none now).1
        = .ok (.taskId t.id) ∧
      t.status = .pending ∧ t.priority = .low ∧ t.user_id = u ∧
      (∀ t' ∈ st.tasks, t.id ≠ t'.id) ∧
      t ∈ list_tasks (handle_add_task st u "Buy milk" none (some .low) none now).2 u none ∧
      t ∉ list_tasks (handle_add_task st u "Buy milk" none (some .low) none now).2 other none := by
  refine ⟨{ id := mkTaskId st.nextTaskNum, user_id := u, title := "Buy milk",
            description := none, status := .pending, priority := .low,
            due_date := none, created_at := now, updated_at := now,
            completed_at := none }, ?_, rfl, rfl, rfl, ?_, ?_, ?_⟩
  · simp [handle_add_task, hu]
  · intro t' ht' h
    exact hfresh t' ht' h.symm
  · simp [handle_add_task, hu, list_tasks, List.mem_filter]
  · intro hmem
    unfold list_tasks at hmem
    simp only [List.mem_filter, decide_eq_true_eq] at hmem
    exact hother hmem.1.2.symm

/-- Witness for C6: adding `Buy milk` for alice on the sample store. -/
theorem add_task_buy_milk_C6_witness :
    "alice" ∈ sampleStore.users ∧ ("bob" : String) ≠ "alice" ∧
    (∀ t ∈ sampleStore.tasks, t.id ≠ mkTaskId sampleStore.nextTaskNum) ∧
    ∃ t : Task,
      (handle_add_task sampleStore "alice" "Buy milk" none (some .low) none "t1").1
        = .ok (.taskId t.id) ∧
      t.status = .pending ∧ t.priority = .low ∧ t.user_id = "alice" ∧
      (∀ t' ∈ sampleStore.tasks, t.id ≠ t'.id) ∧
      t ∈ list_tasks (handle_add_task sampleStore "alice" "Buy milk" none (some .low) none "t1").2 "alice" none ∧
      t ∉ list_tasks (handle_add_task sampleStore "alice" "Buy milk" none (some .low) none "t1").2 "bob" none := by
  refine ⟨by decide, by decide, by decide, ?_⟩
  exact add_task_buy_milk_C6 sampleStore "alice" "bob" "t1" (by decide) (by decide) (by decide)

/-- No tool touches conversations, messages or the message counter. -/
theorem execute_tool_frame (st : Store) (u now : String) (r : ToolReq) :
    (execute_tool st u now r).2.conversations = st.conversations ∧
    (execute_tool st u now r).2.messages = st.messages ∧
    (execute_tool st u now r).2.nextMsgId = st.nextMsgId := by
  cases r <;>
    simp only [execute_tool, handle_add_task, complete_task, delete_task, update_task] <;>
    (repeat' split) <;> simp

/-- Running a batch of tool calls touches neither conversations, nor
messages, nor the message counter. -/
theorem run_tools_frame (u now : String) (st : Store) (rs : List ToolReq) :
    (run_tools u now st rs).1.conversations = st.conversations ∧
    (run_tools u now st rs).1.messages = st.messages ∧
    (run_tools u now st rs).1.nextMsgId = st.nextMsgId := by
  induction rs generalizing st with
  | nil => exact ⟨rfl, rfl, rfl⟩
  | cons r rs ih =>
    have h1 := execute_tool_frame st u now r
    have h2 := ih (execute_tool st u now r).2
    exact ⟨h2.1.trans h1.1, h2.2.1.trans h1.2.1, h2.2.2.trans h1.2.2⟩

/-- **C1.** When the path-embedded `user_id` differs from the verified token
subject, the chat handler rejects the request with a 403 Forbidden before
business logic runs: the store is untouched and no Tool Executor operation
executes. -/
theorem identity_guard_C1 (st : Store) (token_data : TokenData)
    (user_id : String) (request : ChatRequest) (agentCalls : List ToolReq)
    (response_text now : String) (hne : token_data.user_id ≠ user_id) :
    (chat st token_data user_id request agentCalls response_text now).1
      = .error { status := 403,
                 detail := "User ID in path does not match authenticated user" } ∧
    (chat st token_data user_id request agentCalls response_text now).2.1 = st ∧
    (chat st token_data user_id request agentCalls response_text now).2.2 = [] := by
  refine ⟨?_, ?_, ?_⟩ <;> simp [chat, hne]

/-- Witness for C1: a token for mallory on alice's chat path is rejected with
403 and executes nothing, even though the agent requested a deletion. -/
theorem identity_guard_C1_witness :
    ("mallory" : String) ≠ "alice" ∧
    (chat sampleStore { user_id := "mallory" } "alice"
        { message := "delete my tasks", conversation_id := none }
        [.delete_task "task-0"] "ok" "t1").1
      = .error { status := 403,
                 detail := "User ID in path does not match authenticated user" } ∧
    (chat sampleStore { user_id := "mallory" } "alice"
        { message := "delete my tasks", conversation_id := none }
        [.delete_task "task-0"] "ok" "t1").2.1 = sampleStore ∧
    (chat sampleStore { user_id := "mallory" } "alice"
        { message := "delete my tasks", conversation_id := none }
        [.delete_task "task-0"] "ok" "t1").2.2 = [] := by
  refine ⟨by decide, ?_⟩
  exact identity_guard_C1 sampleStore { user_id := "mallory" } "alice"
    { message := "delete my tasks", conversation_id := none }
    [.delete_task "task-0"] "ok" "t1" (by decide)

/-- A chat request without a conversation id succeeds and pushes exactly one
new conversation, owned by the requesting user, whose id is returned. -/
theorem chat_none_creates (st : Store) (u msg rt now : String)
    (agent : List ToolReq) :
    ∃ (r1 : ChatResponse) (st1 : Store),
      chat st { user_id := u } u { message := msg, conversation_id := none }
          agent rt now
        = (.ok r1, st1, agent) ∧
      st1.conversations
        = ({ id := st.nextConvId, user_id := u, title := none } : Conversation)
            :: st.conversations ∧
      r1.conversation_id = st.nextConvId := by
  have key : chat st { user_id := u } u { message := msg, conversation_id := none }
        agent rt now
      = run_agent_with_message st u { message := msg, conversation_id := none }
          agent rt now := by
    dsimp only [chat]
    rw [if_neg (show ¬(u ≠ u) from fun h => h rfl)]
  exact ⟨_, _, key, (run_tools_frame u now _ agent).1, rfl⟩

/-- A chat request that supplies the id of the head conversation, owned by
the requesting user, succeeds, creates no conversation, and appends exactly
a user message and an assistant message for that conversation. -/
theorem chat_some_appends (S : Store) (u msg rt now : String)
    (agent : List ToolReq) (c : Conversation) (rest : List Conversation)
    (hconv : S.conversations = c :: rest) (hcu : c.user_id = u) :
    ∃ (r2 : ChatResponse) (st2 : Store),
      chat S { user_id := u } u { message := msg, conversation_id := some c.id }
          agent rt now
        = (.ok r2, st2, agent) ∧
      r2.conversation_id = c.id ∧
      st2.conversations = S.conversations ∧
      ∃ mu ma : MessageRec,
        st2.messages = ma :: mu :: S.messages ∧
        mu.conversation_id = c.id ∧ mu.role = .user ∧ mu.content = msg ∧
        ma.conversation_id = c.id ∧ ma.role = .assistant ∧ ma.content = rt := by
  have hres : resolve_conversation S u (some c.id) = .ok (c, S) := by
    simp only [resolve_conversation, hconv, List.find?]
    simp [hcu]
  have key : chat S { user_id := u } u { message := msg, conversation_id := some c.id }
        agent rt now
      = (.ok { success := true, conversation_id := c.id, response := rt,
               tool_calls := (run_tools u now S agent).2,
               message_id := (run_tools u now S agent).1.nextMsgId + 1,
               created_at := now },
         { (run_tools u now S agent).1 with
             messages :=
               ({ id := (run_tools u now S agent).1.nextMsgId + 1,
                  conversation_id := c.id, role := .assistant, content := rt,
                  tool_calls := (run_tools u now S agent).2, created_at := now } : MessageRec)
                 :: ({ id := (run_tools u now S agent).1.nextMsgId,
                       conversation_id := c.id, role := .user, content := msg,
                       tool_calls := [], created_at := now } : MessageRec)
                 :: (run_tools u now S agent).1.messages,
             nextMsgId := (run_tools u now S agent).1.nextMsgId + 2 },
         agent) := by
    dsimp only [chat]
    rw [if_neg (show ¬(u ≠ u) from fun h => h rfl)]
    dsimp only [run_agent_with_message]
    rw [hres]
  refine ⟨_, _, key, rfl, (run_tools_frame u now S agent).1,
    { id := (run_tools u now S agent).1.nextMsgId, conversation_id := c.id,
      role := .user, content := msg, tool_calls := [], created_at := now },
    { id := (run_tools u now S agent).1.nextMsgId + 1, conversation_id := c.id,
      role := .assistant, content := rt, tool_calls := (run_tools u now S agent).2,
      created_at := now },
    ?hm, rfl, rfl, rfl, rfl, rfl, rfl⟩
  case hm => rw [(run_tools_frame u now S agent).2.1]

/-- **C7.** A chat message with no conversation id creates exactly one new
Conversation, owned by the requesting user, and returns its identifier; a
second chat message supplying that identifier appends its user and assistant
messages to the same Conversation and creates no further Conversation. -/
theorem chat_conversation_C7 (st : Store)
    (u msg1 msg2 rt1 rt2 now1 now2 : String) (agent1 agent2 : List ToolReq) :
    ∃ (r1 : ChatResponse) (st1 : Store) (c : Conversation),
      chat st { user_id := u } u { message := msg1, conversation_id := none }
          agent1 rt1 now1
        = (.ok r1, st1, agent1) ∧
      st1.conversations = c :: st.conversations ∧
      c.user_id = u ∧
      r1.conversation_id = c.id ∧
      ∃ (r2 : ChatResponse) (st2 : Store),
        chat st1 { user_id := u } u
            { message := msg2, conversation_id := some r1.conversation_id }
            agent2 rt2 now2
          = (.ok r2, st2, agent2) ∧
        r2.conversation_id = r1.conversation_id ∧
        st2.conversations = st1.conversations ∧
        ∃ mu ma : MessageRec,
          st2.messages = ma :: mu :: st1.messages ∧
          mu.conversation_id = r1.conversation_id ∧ mu.role = .user ∧
          mu.content = msg2 ∧
          ma.conversation_id = r1.conversation_id ∧ ma.role = .assistant ∧
          ma.content = rt2 := by
  obtain ⟨r1, st1, h1, hconv1, hid1⟩ := chat_none_creates st u msg1 rt1 now1 agent1
  obtain ⟨r2, st2, h2, hid2, hconv2, mu, ma, hmsgs, hmu1, hmu2, hmu3, hma1, hma2, hma3⟩ :=
    chat_some_appends st1 u msg2 rt2 now2 agent2
      { id := st.nextConvId, user_id := u, title := none } st.conversations hconv1 rfl
  rw [← hid1] at h2 hid2 hmu1 hma1
  exact ⟨r1, st1, _, h1, hconv1, rfl, hid1,
    r2, st2, h2, hid2, hconv2, mu, ma, hmsgs, hmu1, hmu2, hmu3, hma1, hma2, hma3⟩

/-- Counterexample to C8 as stated: on a concrete successful chat request the
response's serialized shape has no field named `response_text` — the
assistant's text is carried by the field named `response`. -/
theorem chat_response_shape_C8_counterexample :
    (chat sampleStore { user_id := "alice" } "alice"
        { message := "hi", conversation_id := none } [] "Hello" "t1").1
      = .ok { success := true, conversation_id := 1, response := "Hello",
              tool_calls := [], message_id := 2, created_at := "t1" } ∧
    "response_text" ∉ jsonKeys (ChatResponse.toJson
      { success := true, conversation_id := 1, response := "Hello",
        tool_calls := [], message_id := 2, created_at := "t1" }) := by
  exact ⟨rfl, by decide⟩

/-- **C8 (amended).** On success the Chat Orchestrator's response is exactly
the shape with the fields success, conversation_id, response, tool_calls,
message_id and created_at, in that order: the assistant's text is carried by
the field named `response`, alongside the conversation identifier, the
tool-call records, the new message identifier and the creation timestamp. -/
theorem chat_response_shape_C8 (st : Store) (token_data : TokenData)
    (user_id : String) (request : ChatRequest) (agentCalls : List ToolReq)
    (response_text now : String) (r : ChatResponse)
    (hok : (chat st token_data user_id request agentCalls response_text now).1
      = .ok r) :
    jsonKeys (ChatResponse.toJson r)
      = ["success", "conversation_id", "response", "tool_calls", "message_id",
         "created_at"] ∧
    r.success = true ∧ r.response = response_text ∧ r.created_at = now := by
  refine ⟨rfl, ?_⟩
  by_cases hg : token_data.user_id ≠ user_id
  · simp [chat, hg] at hok
  · cases hres : resolve_conversation st user_id request.conversation_id with
    | error e =>
      dsimp only [chat] at hok
      rw [if_neg hg] at hok
      dsimp only [run_agent_with_message] at hok
      rw [hres] at hok
      simp at hok
    | ok p =>
      obtain ⟨conv, st1⟩ := p
      dsimp only [chat] at hok
      rw [if_neg hg] at hok
      dsimp only [run_agent_with_message] at hok
      rw [hres] at hok
      dsimp only [] at hok
      injection hok with h
      rw [← h]
      exact ⟨rfl, rfl, rfl⟩

/-- Witness for C8: a concrete successful chat request, with the serialized
field list evaluated. -/
theorem chat_response_shape_C8_witness :
    (chat sampleStore { user_id := "alice" } "alice"
        { message := "hi", conversation_id := none } [] "Hello" "t1").1
      = .ok { success := true, conversation_id := 1, response := "Hello",
              tool_calls := [], message_id := 2, created_at := "t1" } ∧
    (jsonKeys (ChatResponse.toJson
        { success := true, conversation_id := 1, response := "Hello",
          tool_calls := [], message_id := 2, created_at := "t1" })
      = ["success", "conversation_id", "response", "tool_calls", "message_id",
         "created_at"] ∧
      ({ success := true, conversation_id := 1, response := "Hello",
         tool_calls := [], message_id := 2, created_at := "t1" } : ChatResponse).success = true ∧
      ({ success := true, conversation_id := 1, response := "Hello",
         tool_calls := [], message_id := 2, created_at := "t1" } : ChatResponse).response = "Hello" ∧
      ({ success := true, conversation_id := 1, response := "Hello",
         tool_calls := [], message_id := 2, created_at := "t1" } : ChatResponse).created_at = "t1") := by
  refine ⟨rfl, ?_⟩
  exact chat_response_shape_C8 sampleStore { user_id := "alice" } "alice"
    { message := "hi", conversation_id := none } [] "Hello" "t1" _ rfl

/-- **C9.** For every chat-client operation (sendMessage, getConversation,
listConversations, deleteConversation): when the operation issues a request,
the user identifier in the request path is exactly the sub claim recovered
from the stored bearer token, and the attached bearer is the stored token;
when the stored token is absent or its sub claim cannot be recovered, the
operation throws `Authentication required` and no request is issued. -/
theorem chat_client_identity_C9 (parse : String → Option ClientPayload)
    (st : ClientStore) (request : ChatRequest) (cid : Nat)
    (limit offset : Nat) :
    (∀ req, chatApi.sendMessage parse st request = .ok req →
      some req.pathUserId = getCurrentUserId parse st ∧
      some req.bearer = getAuthToken st) ∧
    (getCurrentUserId parse st = none →
      chatApi.sendMessage parse st request = .error "Authentication required") ∧
    (∀ req, chatApi.getConversation parse st cid = .ok req →
      some req.pathUserId = getCurrentUserId parse st ∧
      some req.bearer = getAuthToken st) ∧
    (getCurrentUserId parse st = none →
      chatApi.getConversation parse st cid = .error "Authentication required") ∧
    (∀ req, chatApi.listConversations parse st limit offset = .ok req →
      some req.pathUserId = getCurrentUserId parse st ∧
      some req.bearer = getAuthToken st) ∧
    (getCurrentUserId parse st = none →
      chatApi.listConversations parse st limit offset
        = .error "Authentication required") ∧
    (∀ req, chatApi.deleteConversation parse st cid = .ok req →
      some req.pathUserId = getCurrentUserId parse st ∧
      some req.bearer = getAuthToken st) ∧
    (getCurrentUserId parse st = none →
      chatApi.deleteConversation parse st cid
        = .error "Authentication required") := by
  refine ⟨?_, ?_, ?_, ?_, ?_, ?_, ?_, ?_⟩
  · intro req hok
    cases hta : getAuthToken st with
    | none => simp [chatApi.sendMessage, hta] at hok
    | some token =>
      cases hcu : getCurrentUserId parse st with
      | none => simp [chatApi.sendMessage, hta, hcu] at hok
      | some uid =>
        by_cases hemp : token = ""
        · simp [chatApi.sendMessage, hta, hcu, hemp] at hok
        · simp [chatApi.sendMessage, hta, hcu, hemp] at hok
          subst hok
          exact ⟨rfl, rfl⟩
  · intro hnone
    cases hta : getAuthToken st with
    | none => simp [chatApi.sendMessage, hta]
    | some token => simp [chatApi.sendMessage, hta, hnone]
  · intro req hok
    cases hta : getAuthToken st with
    | none => simp [chatApi.getConversation, hta] at hok
    | some token =>
      cases hcu : getCurrentUserId parse st with
      | none => simp [chatApi.getConversation, hta, hcu] at hok
      | some uid =>
        by_cases hemp : token = ""
        · simp [chatApi.getConversation, hta, hcu, hemp] at hok
        · simp [chatApi.getConversation, hta, hcu, hemp] at hok
          subst hok
          exact ⟨rfl, rfl⟩
  · intro hnone
    cases hta : getAuthToken st with
    | none => simp [chatApi.getConversation, hta]
    | some token => simp [chatApi.getConversation, hta, hnone]
  · intro req hok
    cases hta : getAuthToken st with
    | none => simp [chatApi.listConversations, hta] at hok
    | some token =>
      cases hcu : getCurrentUserId parse st with
      | none => simp [chatApi.listConversations, hta, hcu] at hok
      | some uid =>
        by_cases hemp : token = ""
        · simp [chatApi.listConversations, hta, hcu, hemp] at hok
        · simp [chatApi.listConversations, hta, hcu, hemp] at hok
          subst hok
          exact ⟨rfl, rfl⟩
  · intro hnone
    cases hta : getAuthToken st with
    | none => simp [chatApi.listConversations, hta]
    | some token => simp [chatApi.listConversations, hta, hnone]
  · intro req hok
    cases hta : getAuthToken st with
    | none => simp [chatApi.deleteConversation, hta] at hok
    | some token =>
      cases hcu : getCurrentUserId parse st with
      | none => simp [chatApi.deleteConversation, hta, hcu] at hok
      | some uid =>
        by_cases hemp : token = ""
        · simp [chatApi.deleteConversation, hta, hcu, hemp] at hok
        · simp [chatApi.deleteConversation, hta, hcu, hemp] at hok
          subst hok
          exact ⟨rfl, rfl⟩
  · intro hnone
    cases hta : getAuthToken st with
    | none => simp [chatApi.deleteConversation, hta]
    | some token => simp [chatApi.deleteConversation, hta, hnone]

/-- Witness for C9: with a stored token whose payload's sub is `alice`,
sendMessage issues a POST whose path user id is `alice`; with no stored
token, sendMessage throws before any request. -/
theorem chat_client_identity_C9_witness :
    chatApi.sendMessage (fun _ => some { sub := some "alice" })
        { authToken := some "tok" } { message := "hi", conversation_id := none }
      = .ok { method := "POST", pathUserId := "alice", pathRest := "/chat",
              bearer := "tok",
              body := some { message := "hi", conversation_id := none } } ∧
    (some "alice" = getCurrentUserId (fun _ => some { sub := some "alice" })
        { authToken := some "tok" } ∧
      some "tok" = getAuthToken { authToken := some "tok" }) ∧
    chatApi.sendMessage (fun _ => some { sub := some "alice" })
        { authToken := none } { message := "hi", conversation_id := none }
      = .error "Authentication required" := by
  refine ⟨rfl, ?_, ?_⟩
  · exact (chat_client_identity_C9 (fun _ => some { sub := some "alice" })
      { authToken := some "tok" } { message := "hi", conversation_id := none }
      1 50 0).1 _ rfl
  · exact (chat_client_identity_C9 (fun _ => some { sub := some "alice" })
      { authToken := none } { message := "hi", conversation_id := none }
      1 50 0).2.1 rfl

/-- When the mock accepts, a health-check failure or a real-call failure is
absorbed by `callWithFallback`: the mock's data comes back wrapped with HTTP
status 200. -/
theorem callWithFallback_mock_ok {T : Type} (b : Bool)
    (real : Except String (AxiosResponse T)) (mock : Except String T) (d : T)
    (hb : b = false ∨ ∃ e, real = .error e) (hm : mock = .ok d) :
    callWithFallback b real mock
      = .ok { data := d, status := 200, statusText := "OK" } := by
  rcases hb with hb | ⟨e, he⟩
  · simp [callWithFallback, hb, hm]
  · cases b
    · simp [callWithFallback, hm]
    · simp [callWithFallback, he, hm]

/-- **C10.** Every authApi operation (login, register, logout, getProfile)
silently falls back to the in-memory mock implementation and returns HTTP
status 200 whenever the backend health check fails or the real backend call
throws — a rejection by the real backend is never surfaced to the caller as
a failure when the mock accepts the same input. -/
theorem authApi_mock_fallback_C10 (health : Except String Nat)
    (tokenFor : MockUser → String) (users : List MockUser)
    (atobParse : String → Option MockTokenPayload) (stored : Option String)
    (email username password : String) :
    (∀ real d, (isBackendAvailable health = false ∨ ∃ e, real = .error e) →
      mockAuthApi.login tokenFor users email password = .ok d →
      authApi.login health real tokenFor users email password
        = .ok { data := d, status := 200, statusText := "OK" }) ∧
    (∀ real d, (isBackendAvailable health = false ∨ ∃ e, real = .error e) →
      (mockAuthApi.register tokenFor users email username password).1 = .ok d →
      authApi.register health real tokenFor users email username password
        = .ok { data := d, status := 200, statusText := "OK" }) ∧
    (∀ real d, (isBackendAvailable health = false ∨ ∃ e, real = .error e) →
      mockAuthApi.logout = .ok d →
      authApi.logout health real
        = .ok { data := d, status := 200, statusText := "OK" }) ∧
    (∀ real d, (isBackendAvailable health = false ∨ ∃ e, real = .error e) →
      mockAuthApi.getProfile atobParse users stored = .ok d →
      authApi.getProfile health real atobParse users stored
        = .ok { data := d, status := 200, statusText := "OK" }) := by
  refine ⟨?_, ?_, ?_, ?_⟩ <;>
    exact fun real d hb hm => callWithFallback_mock_ok _ real _ d hb hm

/-- Witness for C10: with the health check failing and the real call
throwing, all four operations answer 200 with the mock's data. -/
theorem authApi_mock_fallback_C10_witness :
    authApi.login (.error "connection refused") (.error "ECONNREFUSED")
        (fun _ => "tok") MOCK_USERS "admin@example.com" "admin123"
      = .ok { data := { success := true, token := "tok",
                        user := { id := "1", email := "admin@example.com",
                                  username := "admin" },
                        message := "Login successful" },
              status := 200, statusText := "OK" } ∧
    authApi.register (.error "connection refused") (.error "ECONNREFUSED")
        (fun _ => "tok") MOCK_USERS "new@example.com" "newbie" "pw"
      = .ok { data := { success := true, token := "tok",
                        user := { id := "4", email := "new@example.com",
                                  username := "newbie" },
                        message := "Registration successful" },
              status := 200, statusText := "OK" } ∧
    authApi.logout (.error "connection refused") (.error "ECONNREFUSED")
      = .ok { data := { success := true, message := "Logout successful" },
              status := 200, statusText := "OK" } ∧
    authApi.getProfile (.error "connection refused") (.error "ECONNREFUSED")
        (fun _ => some { user_id := "1" }) MOCK_USERS (some "a.b.c")
      = .ok { data := { id := "1", email := "admin@example.com",
                        username := "admin" },
              status := 200, statusText := "OK" } := by
  refine ⟨?_, ?_, ?_, ?_⟩
  · exact (authApi_mock_fallback_C10 (.error "connection refused")
      (fun _ => "tok") MOCK_USERS (fun _ => some { user_id := "1" })
      (some "a.b.c") "admin@example.com" "x" "admin123").1 _ _ (Or.inl rfl) rfl
  · exact (authApi_mock_fallback_C10 (.error "connection refused")
      (fun _ => "tok") MOCK_USERS (fun _ => some { user_id := "1" })
      (some "a.b.c") "new@example.com" "newbie" "pw").2.1 _ _ (Or.inl rfl) rfl
  · exact (authApi_mock_fallback_C10 (.error "connection refused")
      (fun _ => "tok") MOCK_USERS (fun _ => some { user_id := "1" })
      (some "a.b.c") "admin@example.com" "x" "admin123").2.2.1 _ _ (Or.inl rfl) rfl
  · exact (authApi_mock_fallback_C10 (.error "connection refused")
      (fun _ => "tok") MOCK_USERS (fun _ => some { user_id := "1" })
      (some "a.b.c") "admin@example.com" "x" "admin123").2.2.2 _ _ (Or.inl rfl) rfl

end Todo
